import Mathlib

/-
Formal model of the devotee-services backend (src/main.py, src/schemas.py).

Modelling conventions:
- Python strings are modelled as lists of characters (`Str`).
- Numeric catalog values (cost, price, amount) are modelled as exact
  integers; every computation the handlers perform on them (product of a
  catalog value with a count, comparison with 0) is exact, so no
  floating-point behaviour is load-bearing for the modelled properties.
- Calendar dates are modelled by their proleptic-Gregorian ordinal
  (the value of Python's date.toordinal), so date subtraction in days is
  integer subtraction of ordinals.
- The external key-derivation function hashlib.pbkdf2_hmac is an external
  collaborator; the hasher is parametrised by it (`kdf`), and theorems
  about it hold for every choice of kdf.
- The document store (pymongo plus the repository helpers of database.py,
  which are not part of the shown sources) is modelled per the spec:
  collections are lists in insertion order, create appends a record
  stamped with a store-assigned creation counter, find-one returns the
  first match in natural order, and sort by a key descending returns the
  records reordered by that key.
-/

namespace Matha

/-- Python strings, modelled as lists of characters. -/
abbrev Str := List Char

instance {ε α : Type} [DecidableEq ε] [DecidableEq α] : DecidableEq (Except ε α) := fun a b =>
  match a, b with
  | .error e1, .error e2 =>
    if h : e1 = e2 then isTrue (by rw [h])
    else isFalse (by intro hc; cases hc; exact h rfl)
  | .error _, .ok _ => isFalse (by intro hc; cases hc)
  | .ok _, .error _ => isFalse (by intro hc; cases hc)
  | .ok a1, .ok a2 =>
    if h : a1 = a2 then isTrue (by rw [h])
    else isFalse (by intro hc; cases hc; exact h rfl)

/-! ## Credential hasher (main.py lines 54-66)

`hash_password` returns `salt + "$" + hex-digest`; `verify_password`
splits the stored form on `"$"`, recomputes the digest and compares,
returning false on any malformed stored form (the Python code wraps the
body in try/except returning False). The PBKDF2 derivation itself is the
external `kdf` parameter; salts and hex digests contain no `'$'`
character, which theorems record as an explicit hypothesis. -/

/-- Python's str.split(sep) for a one-character separator: the list of
maximal (possibly empty) fragments between occurrences of the separator. -/
def splitOnChar (c : Char) : Str → List Str
  | [] => [[]]
  | x :: xs =>
    if x = c then
      [] :: splitOnChar c xs
    else
      match splitOnChar c xs with
      | [] => [[x]]
      | y :: ys => (x :: y) :: ys

/-- main.py hash_password: salt ++ "$" ++ kdf(password, salt).
The random salt generation (secrets.token_hex) is externalised: the salt
is a parameter. -/
def hash_password (kdf : Str → Str → Str) (salt password : Str) : Str :=
  salt ++ '$' :: kdf password salt

/-- main.py verify_password: split the stored form on "$" into exactly
two fragments (Python's tuple unpacking raises otherwise, caught by the
except branch which returns False), recompute the digest with the
extracted salt, compare. -/
def verify_password (kdf : Str → Str → Str) (password stored : Str) : Bool :=
  match splitOnChar '$' stored with
  | [salt, hexhash] => kdf password salt == hexhash
  | _ => false

theorem splitOnChar_not_mem {c : Char} : ∀ {s : Str}, c ∉ s → splitOnChar c s = [s]
  | [], _ => rfl
  | x :: xs, h => by
    have hx : ¬ x = c := fun he => h (he ▸ List.mem_cons_self x xs)
    have hxs : c ∉ xs := fun hm => h (List.mem_cons_of_mem x hm)
    simp [splitOnChar, hx, splitOnChar_not_mem hxs]

theorem splitOnChar_append {c : Char} {a b : Str} (ha : c ∉ a) (hb : c ∉ b) :
    splitOnChar c (a ++ c :: b) = [a, b] := by
  induction a with
  | nil => simp [splitOnChar, splitOnChar_not_mem hb]
  | cons x xs ih =>
    have hx : ¬ x = c := fun he => ha (he ▸ List.mem_cons_self x xs)
    have hxs : c ∉ xs := fun hm => ha (List.mem_cons_of_mem x hm)
    simp [splitOnChar, hx, ih hxs]

theorem splitOnChar_length (c : Char) : ∀ (s : Str),
    (splitOnChar c s).length = s.count c + 1
  | [] => by simp [splitOnChar]
  | x :: xs => by
    by_cases hx : x = c
    · simp [splitOnChar, hx, splitOnChar_length c xs, List.count_cons]
    · have hrec := splitOnChar_length c xs
      cases hsp : splitOnChar c xs with
      | nil => simp [hsp] at hrec
      | cons y ys =>
        rw [hsp] at hrec
        simp [splitOnChar, hx, hsp, List.count_cons]
        simpa using hrec

/-- C7: for every key-derivation function, every salt and digest free of
the separator character, verifying a password against its own stored hash
succeeds, and verifying a different password fails whenever the derived
keys differ (the event the spec calls overwhelmingly probable). -/
theorem c7_verify_roundtrip_and_mismatch (kdf : Str → Str → Str) (salt p1 p2 : Str)
    (hsalt : '$' ∉ salt) (h1 : '$' ∉ kdf p1 salt) (h2 : '$' ∉ kdf p2 salt)
    (hne : kdf p1 salt ≠ kdf p2 salt) :
    verify_password kdf p1 (hash_password kdf salt p1) = true ∧
    verify_password kdf p1 (hash_password kdf salt p2) = false := by
  constructor
  · unfold verify_password hash_password
    rw [splitOnChar_append hsalt h1]
    simp
  · unfold verify_password hash_password
    rw [splitOnChar_append hsalt h2]
    simpa using hne

/-- Key-derivation function used in concrete instantiations. -/
def wkdf : Str → Str → Str := fun p _ => p

theorem c7_witness :
    ('$' ∉ (['a'] : Str)) ∧ wkdf ['x'] ['a'] ≠ wkdf ['y'] ['a'] ∧
    (verify_password wkdf (['x']) (hash_password wkdf (['a']) (['x'])) = true ∧
     verify_password wkdf (['x']) (hash_password wkdf (['a']) (['y'])) = false) :=
  ⟨by decide, by decide,
    c7_verify_roundtrip_and_mismatch wkdf ['a'] ['x'] ['y']
      (by decide) (by decide) (by decide) (by decide)⟩

/-- C8: verification is a total boolean function (the model of a Python
function whose whole body is guarded by try/except returning False), and
on every stored form whose separator structure is malformed — no `'$'`
separator, or more than one — it returns false rather than an error. -/
theorem c8_verify_malformed_false (kdf : Str → Str → Str) (password stored : Str)
    (hmal : stored.count '$' ≠ 1) :
    verify_password kdf password stored = false := by
  have hlen := splitOnChar_length '$' stored
  unfold verify_password
  cases hsp : splitOnChar '$' stored with
  | nil => rfl
  | cons a t =>
    cases t with
    | nil => rfl
    | cons b t2 =>
      cases t2 with
      | nil =>
        rw [hsp] at hlen
        simp at hlen
        omega
      | cons a3 t3 => rfl

theorem c8_witness :
    ((['a', 'b'] : Str).count '$' ≠ 1) ∧
    verify_password wkdf (['p']) (['a', 'b']) = false :=
  ⟨by decide, c8_verify_malformed_false wkdf ['p'] ['a', 'b'] (by decide)⟩

/-! ## Data model (schemas.py, plus store-assigned metadata)

Each structure carries the fields of the corresponding pydantic schema.
`id` is the store-assigned `_id` (an ObjectId, surfaced as its 24-hex-char
string form) and `created_at` the store-assigned creation stamp, both
modelled from the spec (the repository helpers live in database.py, which
is not among the shown sources): the creation stamp is a counter so that
later inserts always carry a larger stamp. -/

/-- Devoteeuser document (schemas.py) plus session fields written by
register/login (main.py lines 162, 175). -/
structure UserDoc where
  id : Nat
  name : Str
  email : Str
  password_hash : Str
  phone : Option Str
  is_admin : Bool
  session_token : Str
  token_issued_at : Nat
deriving DecidableEq

/-- Seva catalog document (schemas.py). -/
structure SevaDoc where
  id : Str
  title : Str
  description : Option Str
  time : Str
  cost : Int
deriving DecidableEq

/-- Room catalog document (schemas.py). -/
structure RoomDoc where
  id : Str
  name : Str
  capacity : Int
  price : Int
  amenities : List Str
deriving DecidableEq

/-- Sevabooking document (schemas.py). -/
structure SevaBookingDoc where
  user_email : Str
  seva_id : Str
  date : Int
  quantity : Int
  amount : Int
  status : Str
  receipt_no : Option Str
  created_at : Nat
deriving DecidableEq

/-- Roombooking document (schemas.py). -/
structure RoomBookingDoc where
  user_email : Str
  room_id : Str
  check_in : Int
  check_out : Int
  guests : Int
  amount : Int
  status : Str
  receipt_no : Option Str
  created_at : Nat
deriving DecidableEq

/-- Newspost document (schemas.py) plus the store-assigned creation stamp. -/
structure NewsDoc where
  id : Nat
  title : Str
  content : Str
  published_on : Int
  tags : List Str
  created_at : Nat
deriving DecidableEq

/-- The document store: one list per collection, in insertion order,
plus the creation-stamp counter. -/
structure DB where
  users : List UserDoc
  sevas : List SevaDoc
  rooms : List RoomDoc
  sevabookings : List SevaBookingDoc
  roombookings : List RoomBookingDoc
  news : List NewsDoc
  nextCreated : Nat
deriving DecidableEq

/-- Error taxonomy of the handlers: each constructor is one distinct
failure exit of the Python code. -/
inductive ApiErr where
  | unauthorized
  | forbidden
  | notFound
  | invalidRange
  | conflict
  | invalidCredentials
  | invalidId
  | modelValidation
deriving DecidableEq

/-- HTTP status each failure surfaces as. The first six are explicit
HTTPException status codes in main.py; `invalidId` (bson raising on a
malformed ObjectId string) and `modelValidation` (pydantic raising inside
the handler body) are uncaught exceptions, which the framework surfaces
as a generic 500 server error. -/
def ApiErr.statusCode : ApiErr → Nat
  | .unauthorized => 401
  | .forbidden => 403
  | .notFound => 404
  | .invalidRange => 400
  | .conflict => 400
  | .invalidCredentials => 400
  | .invalidId => 500
  | .modelValidation => 500

/-- Response of register/login (main.py TokenResponse). -/
structure TokenResponse where
  token : Str
  name : Str
  email : Str
  is_admin : Bool
deriving DecidableEq

/-! ## Session resolution (main.py lines 96-111) -/

def lowerStr (s : Str) : Str := s.map Char.toLower

/-- The seven characters the Authorization header is compared against. -/
def bearerTag : Str := ['b', 'e', 'a', 'r', 'e', 'r', ' ']

/-- main.py lines 100-101: if the lower-cased header starts with
"bearer " drop that prefix (token.split with maxsplit 1 after a
"bearer "-shaped start yields exactly the characters after the first
space, which is the one at index 6). -/
def stripBearer (token : Str) : Str :=
  if lowerStr (token.take 7) = bearerTag then token.drop 7 else token

/-- main.py get_user_by_token: a missing header or an empty header value
is rejected (Python's falsiness test), otherwise the optional bearer
marker is stripped and the user whose stored session_token equals the
presented token is looked up; no match is a 401. -/
def get_user_by_token (db : DB) (header : Option Str) : Except ApiErr UserDoc :=
  match header with
  | none => .error .unauthorized
  | some token =>
    if token = [] then .error .unauthorized
    else
      match db.users.find? (fun u => u.session_token == stripBearer token) with
      | none => .error .unauthorized
      | some u => .ok u

/-- main.py require_admin: resolve the caller, then reject non-admins. -/
def require_admin (db : DB) (header : Option Str) : Except ApiErr UserDoc :=
  match get_user_by_token db header with
  | .error e => .error e
  | .ok u => if u.is_admin then .ok u else .error .forbidden

/-! ## Registration and login (main.py lines 148-176) -/

/-- main.py RegisterPayload: the registration request model. It has no
admin-related field at all. -/
structure RegisterPayload where
  name : Str
  email : Str
  password : Str
  phone : Option Str
deriving DecidableEq

/-- main.py register: reject a duplicate email, hash the password, issue
a fresh token and insert the user document with is_admin hard-coded to
False. The random salt, the fresh token and the store-assigned id are
parameters (externalised randomness). -/
def register (kdf : Str → Str → Str) (db : DB) (p : RegisterPayload)
    (salt tok : Str) (now newId : Nat) : Except ApiErr TokenResponse × DB :=
  match db.users.find? (fun u => u.email == p.email) with
  | some _ => (.error .conflict, db)
  | none =>
    let user : UserDoc :=
      { id := newId, name := p.name, email := p.email,
        password_hash := hash_password kdf salt p.password, phone := p.phone,
        is_admin := false, session_token := tok, token_issued_at := now }
    (.ok { token := tok, name := p.name, email := p.email, is_admin := false },
     { db with users := db.users ++ [user] })

/-- The session-rotation write of main.py line 175: update_one on the
user's _id, setting session_token and token_issued_at. Store _ids are
unique, so the single-document update is the map that rewrites exactly
the documents carrying that _id. -/
def rotateToken (uid : Nat) (tok : Str) (now : Nat) (u : UserDoc) : UserDoc :=
  if u.id = uid then { u with session_token := tok, token_issued_at := now } else u

/-- main.py login: look up the user by email, verify the password
(invalid credentials otherwise), then overwrite that user's
session_token and token_issued_at with a fresh token and timestamp.
The fresh token is a parameter (externalised randomness). -/
def login (kdf : Str → Str → Str) (db : DB) (email password tok : Str)
    (now : Nat) : Except ApiErr TokenResponse × DB :=
  match db.users.find? (fun u => u.email == email) with
  | none => (.error .invalidCredentials, db)
  | some u =>
    if verify_password kdf password u.password_hash then
      (.ok { token := tok, name := u.name, email := u.email, is_admin := u.is_admin },
       { db with users := db.users.map (rotateToken u.id tok now) })
    else (.error .invalidCredentials, db)

/-! ## Seva creation (main.py lines 194-205) -/

/-- main.py SevaCreate: the request model for POST /api/sevas. -/
structure SevaCreate where
  title : Str
  description : Option Str
  time : Str
  cost : Int
deriving DecidableEq

/-- Validation the Seva document model performs (schemas.py: cost ≥ 0). -/
def sevaModelValid (p : SevaCreate) : Prop := 0 ≤ p.cost

instance (p : SevaCreate) : Decidable (sevaModelValid p) := by
  unfold sevaModelValid; infer_instance

/-- main.py create_seva: admin-gated; builds the Seva document (whose
model validation enforces cost ≥ 0; a violation raises inside the
handler) and inserts it. The store-assigned id is a parameter. -/
def create_seva (db : DB) (header : Option Str) (p : SevaCreate)
    (newId : Str) : Except ApiErr Str × DB :=
  match require_admin db header with
  | .error e => (.error e, db)
  | .ok _ =>
    if sevaModelValid p then
      (.ok newId,
       { db with sevas := db.sevas ++
          [{ id := newId, title := p.title, description := p.description,
             time := p.time, cost := p.cost }] })
    else (.error .modelValidation, db)

/-- C9: POST /api/sevas is gated exactly as the spec orders it: whenever
token resolution fails the result is the 401 Unauthorized error (not the
admin error), and whenever the token resolves to a non-admin the result
is the 403 Forbidden error; in both cases the store is unchanged, so no
seva is created. -/
theorem c9_create_seva_auth_gates (db : DB) (header : Option Str)
    (p : SevaCreate) (newId : Str) :
    (get_user_by_token db header = .error .unauthorized →
      create_seva db header p newId = (.error .unauthorized, db) ∧
      ApiErr.unauthorized.statusCode = 401) ∧
    (∀ u, get_user_by_token db header = .ok u → u.is_admin = false →
      create_seva db header p newId = (.error .forbidden, db) ∧
      ApiErr.forbidden.statusCode = 403) := by
  constructor
  · intro hauth
    refine ⟨?_, rfl⟩
    unfold create_seva require_admin
    rw [hauth]
  · intro u hauth hadmin
    refine ⟨?_, rfl⟩
    unfold create_seva require_admin
    rw [hauth]
    simp [hadmin]

/-- C10: every user document present after a register call either was
already in the store or carries is_admin = false: the public
registration endpoint can never create an admin account (and its payload
model has no admin field to begin with). -/
theorem c10_register_never_admin (kdf : Str → Str → Str) (db : DB)
    (p : RegisterPayload) (salt tok : Str) (now newId : Nat) :
    ∀ u ∈ (register kdf db p salt tok now newId).2.users,
      u ∈ db.users ∨ u.is_admin = false := by
  intro u hu
  unfold register at hu
  cases hfind : db.users.find? (fun v => v.email == p.email) with
  | some w => rw [hfind] at hu; exact Or.inl hu
  | none =>
    rw [hfind] at hu
    simp at hu
    rcases hu with hu | hu
    · exact Or.inl hu
    · right; rw [hu]

/-! ## Booking handlers (main.py lines 232-284) -/

/-- A character bson's ObjectId parser accepts (hexadecimal digit). -/
def isHexChar (c : Char) : Bool :=
  c.isDigit || ('a' ≤ c && c ≤ 'f') || ('A' ≤ c && c ≤ 'F')

/-- A string the ObjectId constructor accepts: exactly 24 hexadecimal
characters. On any other string the constructor raises, which the
handlers do not catch. -/
def isValidObjectId (s : Str) : Bool :=
  s.length == 24 && s.all isHexChar

/-- The status value written on every new booking. -/
def statusConfirmed : Str := ['c', 'o', 'n', 'f', 'i', 'r', 'm', 'e', 'd']

/-- main.py SevaBookingCreate: the request model for POST /api/book/seva.
quantity is a plain int with default 1. -/
structure SevaBookingCreate where
  seva_id : Str
  date : Int
  quantity : Int
deriving DecidableEq

/-- Payload validation of SevaBookingCreate: the request model declares
no constraint beyond the field types — in particular no lower bound on
quantity — so every typed payload passes. -/
def sevaBookingCreateValid (_p : SevaBookingCreate) : Bool := true

/-- main.py RoomBookingCreate: the request model for POST /api/book/room.
guests is a plain int. -/
structure RoomBookingCreate where
  room_id : Str
  check_in : Int
  check_out : Int
  guests : Int
deriving DecidableEq

/-- Payload validation of RoomBookingCreate: no constraint beyond the
field types (in particular no lower bound on guests). -/
def roomBookingCreateValid (_p : RoomBookingCreate) : Bool := true

/-- Validation the Sevabooking document model performs when the handler
constructs it (schemas.py lines 41-52): quantity ≥ 1 and amount ≥ 0.
A violation raises pydantic's error inside the handler body. -/
def sevaBookingModelValid (quantity amount : Int) : Prop :=
  1 ≤ quantity ∧ 0 ≤ amount

instance (q a : Int) : Decidable (sevaBookingModelValid q a) := by
  unfold sevaBookingModelValid; infer_instance

/-- Validation the Roombooking document model performs (schemas.py lines
54-66): guests ≥ 1 and amount ≥ 0. -/
def roomBookingModelValid (guests amount : Int) : Prop :=
  1 ≤ guests ∧ 0 ≤ amount

instance (g a : Int) : Decidable (roomBookingModelValid g a) := by
  unfold roomBookingModelValid; infer_instance

/-- main.py book_seva: resolve the caller, parse the seva_id as an
ObjectId (raising on a malformed string), look the seva up (404 when
absent), compute amount = cost * quantity from the live catalog entry,
construct the Sevabooking document (whose model validation can raise),
insert it. -/
def book_seva (db : DB) (header : Option Str) (p : SevaBookingCreate) :
    Except ApiErr SevaBookingDoc × DB :=
  match get_user_by_token db header with
  | .error e => (.error e, db)
  | .ok user =>
    if isValidObjectId p.seva_id then
      match db.sevas.find? (fun s => s.id == p.seva_id) with
      | none => (.error .notFound, db)
      | some seva =>
        let amount : Int := seva.cost * p.quantity
        if sevaBookingModelValid p.quantity amount then
          let doc : SevaBookingDoc :=
            { user_email := user.email, seva_id := p.seva_id, date := p.date,
              quantity := p.quantity, amount := amount,
              status := statusConfirmed, receipt_no := none,
              created_at := db.nextCreated }
          (.ok doc, { db with sevabookings := db.sevabookings ++ [doc],
                              nextCreated := db.nextCreated + 1 })
        else (.error .modelValidation, db)
    else (.error .invalidId, db)

/-- main.py book_room: resolve the caller, parse the room_id, look the
room up (404 when absent), compute nights as the day difference of the
dates, reject a non-positive range with the 400 InvalidRange error,
compute amount = price * max(1, nights), construct the Roombooking
document (whose model validation can raise), insert it. -/
def book_room (db : DB) (header : Option Str) (p : RoomBookingCreate) :
    Except ApiErr RoomBookingDoc × DB :=
  match get_user_by_token db header with
  | .error e => (.error e, db)
  | .ok user =>
    if isValidObjectId p.room_id then
      match db.rooms.find? (fun r => r.id == p.room_id) with
      | none => (.error .notFound, db)
      | some room =>
        let nights : Int := p.check_out - p.check_in
        if nights ≤ 0 then (.error .invalidRange, db)
        else
          let amount : Int := room.price * max 1 nights
          if roomBookingModelValid p.guests amount then
            let doc : RoomBookingDoc :=
              { user_email := user.email, room_id := p.room_id,
                check_in := p.check_in, check_out := p.check_out,
                guests := p.guests, amount := amount,
                status := statusConfirmed, receipt_no := none,
                created_at := db.nextCreated }
            (.ok doc, { db with roombookings := db.roombookings ++ [doc],
                                nextCreated := db.nextCreated + 1 })
          else (.error .modelValidation, db)
    else (.error .invalidId, db)

/-! ## Calendar ordinals

Python date subtraction yields the difference of proleptic-Gregorian
ordinals; `toordinal` mirrors date.toordinal so the concrete examples
can use real calendar dates. -/

def isLeap (y : Nat) : Bool := (y % 4 == 0 && y % 100 != 0) || y % 400 == 0

def monthLengths (leap : Bool) : List Nat :=
  [31, if leap then 29 else 28, 31, 30, 31, 30, 31, 31, 30, 31, 30, 31]

def daysBeforeYear (y : Nat) : Nat :=
  (y - 1) * 365 + (y - 1) / 4 - (y - 1) / 100 + (y - 1) / 400

def daysBeforeMonth (y m : Nat) : Nat :=
  ((monthLengths (isLeap y)).take (m - 1)).sum

def toordinal (y m d : Nat) : Nat := daysBeforeYear y + daysBeforeMonth y m + d

/-! ## Concrete fixtures used to instantiate the theorems -/

def adminTok : Str := ['a', 't', 'o', 'k']

def devTok : Str := ['d', 't', 'o', 'k']

def exAdmin : UserDoc :=
  { id := 1, name := ['a'], email := ['a', '@', 'm'],
    password_hash := ['s', '$', 'a'], phone := none, is_admin := true,
    session_token := adminTok, token_issued_at := 0 }

def exDev : UserDoc :=
  { id := 2, name := ['d'], email := ['d', '@', 'm'],
    password_hash := ['s', '$', 'd'], phone := none, is_admin := false,
    session_token := devTok, token_issued_at := 0 }

/-- A well-formed ObjectId string (24 hex characters). -/
def sevaOid : Str := List.replicate 24 'a'

/-- A second well-formed ObjectId string. -/
def roomOid : Str := List.replicate 24 'b'

def exSeva : SevaDoc :=
  { id := sevaOid, title := ['s'], description := none, time := ['m'], cost := 100 }

def exRoom : RoomDoc :=
  { id := roomOid, name := ['r'], capacity := 2, price := 800, amenities := [] }

def exDB : DB :=
  { users := [exAdmin, exDev], sevas := [exSeva], rooms := [exRoom],
    sevabookings := [], roombookings := [], news := [], nextCreated := 0 }

def emptyDB : DB :=
  { users := [], sevas := [], rooms := [], sevabookings := [],
    roombookings := [], news := [], nextCreated := 0 }

def exSevaPayload : SevaCreate :=
  { title := ['x'], description := none, time := ['t'], cost := 50 }

def exRegPayload : RegisterPayload :=
  { name := ['n'], email := ['n', '@', 'm'], password := ['p', 'w'], phone := none }

def exRegUser : UserDoc :=
  { id := 9, name := ['n'], email := ['n', '@', 'm'],
    password_hash := ['s', '$', 'p', 'w'], phone := none, is_admin := false,
    session_token := ['t', 'k'], token_issued_at := 3 }

/-- A well-formed ObjectId string matching no catalog document of exDB. -/
def unknownOid : Str := List.replicate 24 'e'

/-- A string the ObjectId constructor rejects (wrong length, non-hex). -/
def badOid : Str := ['x', 'y', 'z']

def exSevaBookingQ0 : SevaBookingCreate :=
  { seva_id := sevaOid, date := 5, quantity := 0 }

def exSevaBookingQ3 : SevaBookingCreate :=
  { seva_id := sevaOid, date := 5, quantity := 3 }

/-- Two nights: check-in 2024-01-01, check-out 2024-01-03. -/
def exRoomBooking2N : RoomBookingCreate :=
  { room_id := roomOid, check_in := (toordinal 2024 1 1 : Nat),
    check_out := (toordinal 2024 1 3 : Nat), guests := 2 }

/-- Same-day check-in and check-out. -/
def exRoomBookingSameDay : RoomBookingCreate :=
  { room_id := roomOid, check_in := (toordinal 2024 1 1 : Nat),
    check_out := (toordinal 2024 1 1 : Nat), guests := 2 }

/-- Valid two-night range but zero guests. -/
def exRoomBookingG0 : RoomBookingCreate :=
  { room_id := roomOid, check_in := (toordinal 2024 1 1 : Nat),
    check_out := (toordinal 2024 1 3 : Nat), guests := 0 }

theorem c9_witness :
    (get_user_by_token exDB none = .error .unauthorized ∧
      create_seva exDB none exSevaPayload sevaOid = (.error .unauthorized, exDB)) ∧
    (get_user_by_token exDB (some devTok) = .ok exDev ∧
      create_seva exDB (some devTok) exSevaPayload sevaOid = (.error .forbidden, exDB)) :=
  ⟨⟨by decide,
    ((c9_create_seva_auth_gates exDB none exSevaPayload sevaOid).1 (by decide)).1⟩,
   ⟨by decide,
    ((c9_create_seva_auth_gates exDB (some devTok) exSevaPayload sevaOid).2
      exDev (by decide) (by decide)).1⟩⟩

theorem c10_witness :
    exRegUser ∈ (register wkdf emptyDB exRegPayload (['s']) (['t', 'k']) 3 9).2.users ∧
    (exRegUser ∈ emptyDB.users ∨ exRegUser.is_admin = false) :=
  ⟨by decide,
   c10_register_never_admin wkdf emptyDB exRegPayload ['s'] ['t', 'k'] 3 9
     exRegUser (by decide)⟩

/-! ## Booking claims -/

/-- C2: for every authenticated seva-booking request with quantity ≥ 1
whose seva_id parses and matches a catalog entry with non-negative cost,
the handler inserts exactly one booking whose stored amount is the live
catalog cost times the requested quantity. -/
theorem c2_seva_amount (db : DB) (header : Option Str) (p : SevaBookingCreate)
    (user : UserDoc) (seva : SevaDoc)
    (hauth : get_user_by_token db header = .ok user)
    (hoid : isValidObjectId p.seva_id = true)
    (hfind : db.sevas.find? (fun s => s.id == p.seva_id) = some seva)
    (hq : 1 ≤ p.quantity) (hcost : 0 ≤ seva.cost) :
    ∃ doc : SevaBookingDoc,
      book_seva db header p =
        (.ok doc, { db with sevabookings := db.sevabookings ++ [doc],
                            nextCreated := db.nextCreated + 1 }) ∧
      doc.amount = seva.cost * p.quantity := by
  have hv : sevaBookingModelValid p.quantity (seva.cost * p.quantity) :=
    ⟨hq, mul_nonneg hcost (le_trans zero_le_one hq)⟩
  refine ⟨{ user_email := user.email, seva_id := p.seva_id, date := p.date,
            quantity := p.quantity, amount := seva.cost * p.quantity,
            status := statusConfirmed, receipt_no := none,
            created_at := db.nextCreated }, ?_, rfl⟩
  unfold book_seva
  rw [hauth, hoid, hfind]
  dsimp only
  rw [if_pos hv]
  rfl

theorem c2_witness :
    (1 ≤ exSevaBookingQ3.quantity) ∧ (0 ≤ exSeva.cost) ∧
    (∃ doc : SevaBookingDoc,
      book_seva exDB (some devTok) exSevaBookingQ3 =
        (.ok doc, { exDB with sevabookings := exDB.sevabookings ++ [doc],
                              nextCreated := exDB.nextCreated + 1 }) ∧
      doc.amount = exSeva.cost * exSevaBookingQ3.quantity) :=
  ⟨by decide, by decide,
   c2_seva_amount exDB (some devTok) exSevaBookingQ3 exDev exSeva
     (by decide) (by decide) (by decide) (by decide) (by decide)⟩

/-- The spec's worked example: cost 100 with quantity 3 stores amount 300. -/
theorem seva_amount_100_times_3 :
    ((book_seva exDB (some devTok) exSevaBookingQ3).1.map SevaBookingDoc.amount) =
      .ok 300 := by decide

/-- C1 counterexample: a quantity-0 booking request for an existing seva
passes payload validation (SevaBookingCreate sets no lower bound), and
the handler fails only at the Sevabooking document model, an uncaught
exception surfaced as 500 — not a 400 payload-validation rejection. No
booking is inserted. -/
theorem c1_counterexample :
    sevaBookingCreateValid exSevaBookingQ0 = true ∧
    book_seva exDB (some devTok) exSevaBookingQ0 = (.error .modelValidation, exDB) ∧
    ApiErr.modelValidation.statusCode = 500 ∧
    ApiErr.modelValidation.statusCode ≠ 400 := by decide

/-- C1 (amended): an authenticated seva-booking request with
quantity < 1 for an existing seva passes payload validation, reaches
the amount computation, and is rejected by the Sevabooking document
model's quantity ≥ 1 bound, surfacing as a 500 error; the store is
unchanged, so no booking document is inserted. -/
theorem c1_quantity_below_one_rejected_late (db : DB) (header : Option Str)
    (p : SevaBookingCreate) (user : UserDoc) (seva : SevaDoc)
    (hauth : get_user_by_token db header = .ok user)
    (hoid : isValidObjectId p.seva_id = true)
    (hfind : db.sevas.find? (fun s => s.id == p.seva_id) = some seva)
    (hq : p.quantity < 1) :
    sevaBookingCreateValid p = true ∧
    book_seva db header p = (.error .modelValidation, db) ∧
    ApiErr.modelValidation.statusCode = 500 := by
  have hv : ¬ sevaBookingModelValid p.quantity (seva.cost * p.quantity) :=
    fun h => absurd h.1 (by omega)
  refine ⟨rfl, ?_, rfl⟩
  unfold book_seva
  rw [hauth, hoid, hfind]
  simp only [if_true, if_neg hv]

theorem c1_witness :
    (exSevaBookingQ0.quantity < 1) ∧
    (sevaBookingCreateValid exSevaBookingQ0 = true ∧
     book_seva exDB (some devTok) exSevaBookingQ0 = (.error .modelValidation, exDB) ∧
     ApiErr.modelValidation.statusCode = 500) :=
  ⟨by decide,
   c1_quantity_below_one_rejected_late exDB (some devTok) exSevaBookingQ0 exDev exSeva
     (by decide) (by decide) (by decide) (by decide)⟩

/-- C3 counterexample: a room-booking request for an existing room with a
strictly positive number of nights but guests = 0 creates no booking at
all — the Roombooking model's guests ≥ 1 bound raises (500) after the
range check — contradicting the claim that every positive-range request
stores an amount. -/
theorem c3_counterexample :
    (0 < exRoomBookingG0.check_out - exRoomBookingG0.check_in) ∧
    book_room exDB (some devTok) exRoomBookingG0 = (.error .modelValidation, exDB) ∧
    (book_room exDB (some devTok) exRoomBookingG0).2.roombookings = [] := by decide

/-- C3 (amended): for an authenticated room-booking request whose room_id
parses and matches a catalog entry with non-negative price: a
non-positive night count fails with the 400 InvalidRange error and leaves
the store unchanged; a positive night count with guests ≥ 1 stores
exactly one booking whose amount is price * max(1, nights). -/
theorem c3_room_amount (db : DB) (header : Option Str) (p : RoomBookingCreate)
    (user : UserDoc) (room : RoomDoc)
    (hauth : get_user_by_token db header = .ok user)
    (hoid : isValidObjectId p.room_id = true)
    (hfind : db.rooms.find? (fun r => r.id == p.room_id) = some room)
    (hprice : 0 ≤ room.price) :
    (p.check_out - p.check_in ≤ 0 →
      book_room db header p = (.error .invalidRange, db) ∧
      ApiErr.invalidRange.statusCode = 400) ∧
    (0 < p.check_out - p.check_in → 1 ≤ p.guests →
      ∃ doc : RoomBookingDoc,
        book_room db header p =
          (.ok doc, { db with roombookings := db.roombookings ++ [doc],
                              nextCreated := db.nextCreated + 1 }) ∧
        doc.amount = room.price * max 1 (p.check_out - p.check_in)) := by
  constructor
  · intro hng
    refine ⟨?_, rfl⟩
    unfold book_room
    rw [hauth, hoid, hfind]
    simp only [if_true, if_pos hng]
  · intro hng hg
    have hv : roomBookingModelValid p.guests
        (room.price * max 1 (p.check_out - p.check_in)) :=
      ⟨hg, mul_nonneg hprice (le_trans zero_le_one (le_max_left 1 _))⟩
    refine ⟨{ user_email := user.email, room_id := p.room_id,
              check_in := p.check_in, check_out := p.check_out,
              guests := p.guests,
              amount := room.price * max 1 (p.check_out - p.check_in),
              status := statusConfirmed, receipt_no := none,
              created_at := db.nextCreated }, ?_, rfl⟩
    unfold book_room
    rw [hauth, hoid, hfind]
    dsimp only
    rw [if_neg (not_le.mpr hng), if_pos hv]
    rfl

theorem c3_witness :
    (exRoomBookingSameDay.check_out - exRoomBookingSameDay.check_in ≤ 0) ∧
    (book_room exDB (some devTok) exRoomBookingSameDay = (.error .invalidRange, exDB) ∧
     ApiErr.invalidRange.statusCode = 400) ∧
    (0 < exRoomBooking2N.check_out - exRoomBooking2N.check_in) ∧
    (1 ≤ exRoomBooking2N.guests) ∧
    (∃ doc : RoomBookingDoc,
      book_room exDB (some devTok) exRoomBooking2N =
        (.ok doc, { exDB with roombookings := exDB.roombookings ++ [doc],
                              nextCreated := exDB.nextCreated + 1 }) ∧
      doc.amount = exRoom.price * max 1 (exRoomBooking2N.check_out - exRoomBooking2N.check_in)) :=
  ⟨by decide,
   (c3_room_amount exDB (some devTok) exRoomBookingSameDay exDev exRoom
     (by decide) (by decide) (by decide) (by decide)).1 (by decide),
   by decide, by decide,
   (c3_room_amount exDB (some devTok) exRoomBooking2N exDev exRoom
     (by decide) (by decide) (by decide) (by decide)).2 (by decide) (by decide)⟩

/-- The spec's worked example: price 800, check-in 2024-01-01, check-out
2024-01-03 (two nights) stores amount 1600. -/
theorem room_amount_two_nights :
    ((book_room exDB (some devTok) exRoomBooking2N).1.map RoomBookingDoc.amount) =
      .ok 1600 := by decide

/-- C5 counterexample: a booking request whose seva_id / room_id is a
malformed ObjectId string — hence matching no catalog document — does
not fail with the 404 NotFound error: the uncaught ObjectId constructor
exception surfaces as a 500. The store is still unchanged. -/
theorem c5_counterexample :
    book_seva exDB (some devTok)
      ({ seva_id := badOid, date := 5, quantity := 1 }) = (.error .invalidId, exDB) ∧
    book_room exDB (some devTok)
      ({ room_id := badOid, check_in := 0, check_out := 2, guests := 1 }) =
      (.error .invalidId, exDB) ∧
    ApiErr.invalidId.statusCode = 500 ∧
    ApiErr.invalidId.statusCode ≠ 404 := by decide

/-- C5 (amended): for every authenticated booking request whose
seva_id / room_id is a well-formed ObjectId string matching no catalog
document, the handler fails with the 404 NotFound error and the store is
unchanged (no booking inserted); a malformed id string instead fails
with a 500 error, also leaving the store unchanged. -/
theorem c5_unknown_id_not_found (db : DB) (header : Option Str) (user : UserDoc)
    (hauth : get_user_by_token db header = .ok user) :
    (∀ p : SevaBookingCreate, isValidObjectId p.seva_id = true →
      db.sevas.find? (fun s => s.id == p.seva_id) = none →
      book_seva db header p = (.error .notFound, db)) ∧
    (∀ p : RoomBookingCreate, isValidObjectId p.room_id = true →
      db.rooms.find? (fun r => r.id == p.room_id) = none →
      book_room db header p = (.error .notFound, db)) ∧
    (∀ p : SevaBookingCreate, isValidObjectId p.seva_id = false →
      book_seva db header p = (.error .invalidId, db)) ∧
    (∀ p : RoomBookingCreate, isValidObjectId p.room_id = false →
      book_room db header p = (.error .invalidId, db)) ∧
    ApiErr.notFound.statusCode = 404 := by
  refine ⟨?_, ?_, ?_, ?_, rfl⟩
  · intro p hoid hfind
    unfold book_seva
    rw [hauth, hoid, hfind]
    rfl
  · intro p hoid hfind
    unfold book_room
    rw [hauth, hoid, hfind]
    rfl
  · intro p hoid
    unfold book_seva
    rw [hauth, hoid]
    rfl
  · intro p hoid
    unfold book_room
    rw [hauth, hoid]
    rfl

theorem c5_witness :
    (isValidObjectId unknownOid = true) ∧
    book_seva exDB (some devTok)
      ({ seva_id := unknownOid, date := 5, quantity := 1 }) = (.error .notFound, exDB) ∧
    book_room exDB (some devTok)
      ({ room_id := unknownOid, check_in := 0, check_out := 2, guests := 1 }) =
      (.error .notFound, exDB) :=
  ⟨by decide,
   (c5_unknown_id_not_found exDB (some devTok) exDev (by decide)).1
     ({ seva_id := unknownOid, date := 5, quantity := 1 }) (by decide) (by decide),
   (c5_unknown_id_not_found exDB (some devTok) exDev (by decide)).2.1
     ({ room_id := unknownOid, check_in := 0, check_out := 2, guests := 1 })
     (by decide) (by decide)⟩

/-! ## News listing (main.py lines 306-309)

The store's sort-by-key-descending is modelled by an explicit sorting
function; which correct sorting algorithm the store uses is immaterial
to the ordering claims, which only speak of the relative order of
distinct keys. -/

def insertByDesc {α : Type} (key : α → Int) (x : α) : List α → List α
  | [] => [x]
  | y :: ys => if key y ≤ key x then x :: y :: ys else y :: insertByDesc key x ys

/-- Sort a collection by a key, largest key first. -/
def sortByDesc {α : Type} (key : α → Int) : List α → List α
  | [] => []
  | x :: xs => insertByDesc key x (sortByDesc key xs)

theorem insertByDesc_perm {α : Type} (key : α → Int) (x : α) :
    ∀ l : List α, (insertByDesc key x l).Perm (x :: l)
  | [] => List.Perm.refl _
  | y :: ys => by
    unfold insertByDesc
    split
    · exact List.Perm.refl _
    · exact ((insertByDesc_perm key x ys).cons y).trans (List.Perm.swap x y ys)

theorem sortByDesc_perm {α : Type} (key : α → Int) :
    ∀ l : List α, (sortByDesc key l).Perm l
  | [] => List.Perm.refl _
  | x :: xs =>
    (insertByDesc_perm key x (sortByDesc key xs)).trans
      ((sortByDesc_perm key xs).cons x)

theorem insertByDesc_pairwise {α : Type} (key : α → Int) (x : α) {l : List α}
    (h : l.Pairwise (fun a b => key b ≤ key a)) :
    (insertByDesc key x l).Pairwise (fun a b => key b ≤ key a) := by
  induction l with
  | nil => simp [insertByDesc]
  | cons y ys ih =>
    rw [List.pairwise_cons] at h
    obtain ⟨hy, hys⟩ := h
    unfold insertByDesc
    split
    · rename_i hxy
      refine List.Pairwise.cons ?_ (List.pairwise_cons.mpr ⟨hy, hys⟩)
      intro b hb
      rcases List.mem_cons.mp hb with hb | hb
      · subst hb; exact hxy
      · exact le_trans (hy b hb) hxy
    · rename_i hxy
      refine List.Pairwise.cons ?_ (ih hys)
      intro b hb
      have hb' := (insertByDesc_perm key x ys).mem_iff.mp hb
      rcases List.mem_cons.mp hb' with hb' | hb'
      · subst hb'; exact le_of_not_le hxy
      · exact hy b hb'

theorem sortByDesc_pairwise {α : Type} (key : α → Int) :
    ∀ l : List α, (sortByDesc key l).Pairwise (fun a b => key b ≤ key a)
  | [] => List.Pairwise.nil
  | x :: xs => insertByDesc_pairwise key x (sortByDesc_pairwise key xs)

/-- main.py list_news: GET /api/news returns the newspost collection
sorted with direction -1 on the key published_on — the admin-supplied
publication date, not a store timestamp. -/
def list_news (db : DB) : List NewsDoc :=
  sortByDesc (fun n => n.published_on) db.news

/-- Stated from the claim's words, for comparison: the news listing
ordered newest-first by the store-assigned creation timestamp. -/
def list_news_claim (db : DB) : List NewsDoc :=
  sortByDesc (fun n => (n.created_at : Int)) db.news

def exNewsEarly : NewsDoc :=
  { id := 1, title := ['o'], content := ['o'], published_on := 10, tags := [],
    created_at := 0 }

def exNewsLate : NewsDoc :=
  { id := 2, title := ['n'], content := ['n'], published_on := 5, tags := [],
    created_at := 1 }

def exNewsDB : DB := { emptyDB with news := [exNewsEarly, exNewsLate] }

/-- C4 counterexample: with a post created later (creation stamp 1) but
carrying an earlier publication date (5) than a post created before it
(stamp 0, publication date 10), GET /api/news returns the earlier-created
post first — the order of publication dates, not of creation. -/
theorem c4_counterexample :
    list_news exNewsDB ≠ list_news_claim exNewsDB ∧
    list_news exNewsDB = [exNewsEarly, exNewsLate] ∧
    list_news_claim exNewsDB = [exNewsLate, exNewsEarly] := by decide

/-- C4 (amended): GET /api/news returns a permutation of the news
collection ordered by published_on descending (newest publication date
first), which coincides with creation order only when the two orders
agree. -/
theorem c4_news_sorted_by_published_on (db : DB) :
    (list_news db).Perm db.news ∧
    (list_news db).Pairwise (fun a b => b.published_on ≤ a.published_on) :=
  ⟨sortByDesc_perm _ db.news, sortByDesc_pairwise _ db.news⟩

/-! ## Session rotation on login (claim C6) -/

theorem find_rotated_by_token (uid : Nat) (tok : Str) (now : Nat) :
    ∀ l : List UserDoc, (∀ u ∈ l, u.session_token ≠ tok) →
      (l.map (rotateToken uid tok now)).find? (fun u => u.session_token == tok) =
        (l.find? (fun u => u.id == uid)).map (rotateToken uid tok now) := by
  intro l
  induction l with
  | nil => intro _; rfl
  | cons u l ih =>
    intro h
    have hu : u.session_token ≠ tok := h u (List.mem_cons_self u l)
    have hl : ∀ v ∈ l, v.session_token ≠ tok :=
      fun v hv => h v (List.mem_cons_of_mem u hv)
    by_cases hid : u.id = uid
    · simp [rotateToken, hid, List.find?_cons]
    · simp [rotateToken, hid, List.find?_cons, hu, ih hl]

theorem find_rotated_old_none (uid : Nat) (tok old : Str) (now : Nat)
    (hne : tok ≠ old) :
    ∀ l : List UserDoc, (∀ u ∈ l, u.session_token = old → u.id = uid) →
      (l.map (rotateToken uid tok now)).find? (fun u => u.session_token == old) =
        none := by
  intro l hl
  rw [List.find?_eq_none]
  intro v hv
  rw [List.mem_map] at hv
  obtain ⟨u, hu, rfl⟩ := hv
  unfold rotateToken
  by_cases hid : u.id = uid
  · simp [hid, hne]
  · simp [hid]
    intro heq
    exact hid (hl u hu heq)

/-- C6: after a successful login that issued a fresh token, the new
token resolves to a user whose email is the login email, and the user's
previous token no longer resolves — the session token is replaced, not
appended. Hypotheses record the randomness and store invariants the spec
assumes: the fresh token collides with no stored token, store _ids are
unique, only this user held the old token, and tokens are opaque hex
strings (non-empty, not of the "bearer "-prefixed header shape). -/
theorem c6_login_rotates_session (kdf : Str → Str → Str) (db : DB)
    (email pw tok : Str) (now : Nat) (u0 : UserDoc)
    (hfind : db.users.find? (fun u => u.email == email) = some u0)
    (hpw : verify_password kdf pw u0.password_hash = true)
    (hfresh : ∀ u ∈ db.users, u.session_token ≠ tok)
    (hids : ∀ u ∈ db.users, u.id = u0.id → u = u0)
    (holdtok : ∀ u ∈ db.users, u.session_token = u0.session_token → u.id = u0.id)
    (hs1 : stripBearer tok = tok)
    (hs2 : stripBearer u0.session_token = u0.session_token)
    (hnil1 : tok ≠ []) (hnil2 : u0.session_token ≠ []) :
    (login kdf db email pw tok now).1 =
      .ok { token := tok, name := u0.name, email := u0.email,
            is_admin := u0.is_admin } ∧
    (∃ u', get_user_by_token (login kdf db email pw tok now).2 (some tok) =
      .ok u' ∧ u'.email = email) ∧
    get_user_by_token (login kdf db email pw tok now).2 (some u0.session_token) =
      .error .unauthorized := by
  have hmem : u0 ∈ db.users := List.mem_of_find?_eq_some hfind
  have hemail : u0.email = email := by simpa using List.find?_some hfind
  have hfid : db.users.find? (fun u => u.id == u0.id) = some u0 := by
    cases hf : db.users.find? (fun u => u.id == u0.id) with
    | none =>
      rw [List.find?_eq_none] at hf
      have := hf u0 hmem
      simp at this
    | some w =>
      have hw : w.id = u0.id := by simpa using List.find?_some hf
      rw [hids w (List.mem_of_find?_eq_some hf) hw]
  have hlogin : login kdf db email pw tok now =
      (.ok { token := tok, name := u0.name, email := u0.email,
             is_admin := u0.is_admin },
       { db with users := db.users.map (rotateToken u0.id tok now) }) := by
    unfold login
    rw [hfind]
    dsimp only
    rw [hpw]
    rfl
  rw [hlogin]
  refine ⟨rfl, ⟨rotateToken u0.id tok now u0, ?_, ?_⟩, ?_⟩
  · unfold get_user_by_token
    dsimp only
    rw [if_neg hnil1, hs1,
      find_rotated_by_token u0.id tok now db.users hfresh, hfid]
    rfl
  · simp [rotateToken, hemail]
  · unfold get_user_by_token
    dsimp only
    rw [if_neg hnil2, hs2,
      find_rotated_old_none u0.id tok u0.session_token now
        (Ne.symm (hfresh u0 hmem)) db.users holdtok]

def exLoginUser : UserDoc :=
  { id := 5, name := ['u'], email := ['u', '@', 'm'],
    password_hash := ['s', '$', 'p', 'w'], phone := none, is_admin := false,
    session_token := ['o', 'l', 'd'], token_issued_at := 0 }

def exLoginDB : DB := { emptyDB with users := [exLoginUser] }

theorem c6_witness :
    (login wkdf exLoginDB (['u', '@', 'm']) (['p', 'w']) (['n', 'w']) 7).1 =
      .ok { token := ['n', 'w'], name := exLoginUser.name,
            email := exLoginUser.email, is_admin := exLoginUser.is_admin } ∧
    (∃ u', get_user_by_token
        (login wkdf exLoginDB (['u', '@', 'm']) (['p', 'w']) (['n', 'w']) 7).2
        (some (['n', 'w'])) = .ok u' ∧ u'.email = ['u', '@', 'm']) ∧
    get_user_by_token
        (login wkdf exLoginDB (['u', '@', 'm']) (['p', 'w']) (['n', 'w']) 7).2
        (some exLoginUser.session_token) = .error .unauthorized :=
  c6_login_rotates_session wkdf exLoginDB ['u', '@', 'm'] ['p', 'w'] ['n', 'w'] 7
    exLoginUser (by decide) (by decide) (by decide) (by decide) (by decide)
    (by decide) (by decide) (by decide) (by decide)

end Matha
